import Mathlib

/-!
Verification of `mcp_weather.py` (weather MCP server) and its claims.

The Python source is shallowly embedded: JSON values become an inductive
type, the retry loop of `make_nws_request` becomes a recursive function
over an oracle giving each attempt's classified outcome, the tool bodies
become functions from the fetched values to `Except`-wrapped text (an
`.error` models a propagating Python exception), and log calls / backoff
sleeps become an explicit event trace.
-/

namespace MCPWeather

/-- JSON values as produced by `response.json()`.  Numeric fields exercised
by the claims are integral, so numbers are modelled as `Int`. -/
inductive Json where
  | null
  | bool (b : Bool)
  | num (n : Int)
  | str (s : String)
  | arr (elems : List Json)
  | obj (fields : List (String × Json))

/-- Python truth-value test (`if not x:`) on a JSON value: `None`, `False`,
`0`, `""`, `[]` and `{}` are falsy, everything else truthy. -/
def Json.falsy : Json → Bool
  | .null => true
  | .bool b => !b
  | .num n => n == 0
  | .str s => s == ""
  | .arr xs => xs.isEmpty
  | .obj fs => fs.isEmpty

def Json.isObj : Json → Bool
  | .obj _ => true
  | _ => false

/-- A Python computation that either returns normally or raises; the error
string identifies the exception (message texts are a modelling choice,
the Python runtime's own wording is not reproduced). -/
abbrev Py (α : Type) := Except String α

/-- Python `x.get(key, default)` for `x` a value fetched from JSON:
on a dict, return the stored value (even if `None`) or the default;
on anything else, `.get` does not exist and an `AttributeError` is raised. -/
def pyDictGet (j : Json) (k : String) (dflt : Json) : Py Json :=
  match j with
  | .obj fs => .ok ((fs.lookup k).getD dflt)
  | _ => .error "AttributeError: get"

mutual
/-- Python `repr()` of a JSON value (used for values nested in containers). -/
def pyRepr : Json → String
  | .null => "None"
  | .bool true => "True"
  | .bool false => "False"
  | .num n => toString n
  | .str s => "\x27" ++ s ++ "\x27"
  | .arr xs => "[" ++ String.intercalate ", " (pyReprList xs) ++ "]"
  | .obj fs => "\x7b" ++ String.intercalate ", " (pyReprFields fs) ++ "\x7d"

def pyReprList : List Json → List String
  | [] => []
  | x :: xs => pyRepr x :: pyReprList xs

def pyReprFields : List (String × Json) → List String
  | [] => []
  | (k, v) :: fs => ("\x27" ++ k ++ "\x27: " ++ pyRepr v) :: pyReprFields fs
end

/-- Python `str()` of a JSON value, as interpolated by an f-string. -/
def pyStr : Json → String
  | .null => "None"
  | .bool true => "True"
  | .bool false => "False"
  | .num n => toString n
  | .str s => s
  | .arr xs => pyRepr (.arr xs)
  | .obj fs => pyRepr (.obj fs)

/-- Python `str.strip()` with no argument: remove leading and trailing
whitespace (the strings this code strips contain only ASCII whitespace,
where Python's and Lean's whitespace predicates agree). -/
def pyStrip (s : String) : String :=
  ⟨((s.data.dropWhile Char.isWhitespace).reverse.dropWhile
      Char.isWhitespace).reverse⟩

/-! ## `make_nws_request`: retrying HTTP fetcher -/

/-- What the `try:` block of one GET attempt inside `make_nws_request`
observes, classified exactly along the source's `except` arms. -/
inductive AttemptOutcome where
  | success (body : Json)    -- 2xx response whose body parsed to `body`
  | parseError               -- 2xx response but `response.json()` raised
  | requestError             -- `httpx.RequestError`
  | httpStatus (code : Nat)  -- `httpx.HTTPStatusError`, carrying the status
  | timeout                  -- `asyncio.TimeoutError`
  | otherError               -- any other exception

/-- Observable events of one `make_nws_request` run: one `attempt` per GET
issued, one event per log call, one `sleep` (duration in seconds) per
backoff wait. -/
inductive FetchEvent where
  | attempt (n : Nat)
  | warnParse                 -- "Failed to parse NWS response JSON"
  | warnNetwork               -- "Network error contacting NWS"
  | warnTransient (code : Nat)  -- "NWS transient error (status ...), retrying..."
  | errorStatus (code : Nat)    -- "NWS API returned error ..."
  | warnTimeout               -- "NWS request timed out."
  | errorUnexpected           -- "Unexpected error fetching NWS data"
  | sleep (seconds : ℚ)
  | errorExhausted            -- "Exceeded max retries ..."
deriving DecidableEq, Repr

/-- The set tested by `if status in (429, 500, 502, 503, 504):`. -/
def transientStatus (code : Nat) : Bool :=
  code == 429 || code == 500 || code == 502 || code == 503 || code == 504

/-- The `for attempt in range(1, max_retries + 1):` loop of
`make_nws_request`, started at attempt number `attempt` with `remaining`
iterations left.  `outcomes n` is what the n-th attempt observes;
`backoff` is `backoff_factor`.  Returns the function's return value
(`None` becomes `none`) paired with the event trace. -/
def fetchLoop (outcomes : Nat → AttemptOutcome) (backoff : ℚ) :
    Nat → Nat → Option Json × List FetchEvent
  | _, 0 => (none, [.errorExhausted])
  | attempt, remaining + 1 =>
    match outcomes attempt with
    | .success body =>
        -- `isinstance(data, dict)` check; a non-dict raises ValueError,
        -- caught by the inner `except` which logs and returns None
        if body.isObj then (some body, [.attempt attempt])
        else (none, [.attempt attempt, .warnParse])
    | .parseError => (none, [.attempt attempt, .warnParse])
    | .requestError =>
        let rest := fetchLoop outcomes backoff (attempt + 1) remaining
        (rest.1, .attempt attempt :: .warnNetwork :: .sleep (backoff ^ attempt) :: rest.2)
    | .httpStatus code =>
        if transientStatus code then
          let rest := fetchLoop outcomes backoff (attempt + 1) remaining
          (rest.1, .attempt attempt :: .warnTransient code :: .sleep (backoff ^ attempt) :: rest.2)
        else (none, [.attempt attempt, .errorStatus code])
    | .timeout =>
        let rest := fetchLoop outcomes backoff (attempt + 1) remaining
        (rest.1, .attempt attempt :: .warnTimeout :: .sleep (backoff ^ attempt) :: rest.2)
    | .otherError => (none, [.attempt attempt, .errorUnexpected])

/-- `make_nws_request(url, max_retries, timeout, backoff_factor)`; the URL
and per-request timeout only select which oracle `outcomes` applies, so
they are left implicit in the oracle. -/
def make_nws_request (outcomes : Nat → AttemptOutcome) (maxRetries : Nat)
    (backoff : ℚ) : Option Json × List FetchEvent :=
  fetchLoop outcomes backoff 1 maxRetries

/-- Attempt numbers recorded in a trace, in order. -/
def attemptsOf (evs : List FetchEvent) : List Nat :=
  evs.filterMap fun e => match e with | .attempt n => some n | _ => none

/-- Backoff sleep durations recorded in a trace, in order. -/
def sleepsOf (evs : List FetchEvent) : List ℚ :=
  evs.filterMap fun e => match e with | .sleep d => some d | _ => none

/-- Outcomes whose `except` arm falls through to the backoff sleep (the
transient, keep-trying classification). -/
def AttemptOutcome.retryable : AttemptOutcome → Bool
  | .requestError => true
  | .timeout => true
  | .httpStatus code => transientStatus code
  | _ => false

/-! ## `get_alerts` and `format_alert` -/

/-- The triple-quoted f-string of `format_alert`, with its exact newlines
and 8-space indentation. -/
def alertText (event area severity description instruction : String) : String :=
  "\n        Event: " ++ event ++
  "\n        Area: " ++ area ++
  "\n        Severity: " ++ severity ++
  "\n        Description: " ++ description ++
  "\n        Instructions: " ++ instruction ++
  "\n        "

/-- `format_alert(feature)`.  `feature["properties"]` raises `KeyError`
when the key is absent (it is a subscript, not `.get`) and `TypeError`
on a non-dict; either exception propagates (`.error`). -/
def format_alert (feature : Json) : Py String :=
  match feature with
  | .obj fs =>
    match fs.lookup "properties" with
    | none => .error "KeyError: properties"
    | some props => do
        let event ← pyDictGet props "event" (.str "Unknown")
        let area ← pyDictGet props "areaDesc" (.str "Unknown")
        let severity ← pyDictGet props "severity" (.str "Unknown")
        let description ← pyDictGet props "description" (.str "No description available")
        let instruction ← pyDictGet props "instruction" (.str "No specific instructions provided")
        .ok (alertText (pyStr event) (pyStr area) (pyStr severity)
              (pyStr description) (pyStr instruction))
  | _ => .error "TypeError: subscript"

/-- The `[format_alert(feature) for feature in ...]` comprehension:
stops at the first raised exception. -/
def formatAlerts : List Json → Py (List String)
  | [] => .ok []
  | f :: fs =>
    match format_alert f with
    | .error e => .error e
    | .ok s =>
      match formatAlerts fs with
      | .error e => .error e
      | .ok rest => .ok (s :: rest)

/-- `get_alerts(state)`, applied to the value its `make_nws_request` call
returned (`data`).  The body has no try/except, so an exception raised
while formatting propagates to the caller (modelled as `.error`).
A truthy non-list `features` value, or a non-dict `data`, would raise a
`TypeError`/`AttributeError` during iteration or the `in` test; those
paths are collapsed to a single `.error` (the real fetcher only ever
returns a dict or `None`, so they are unreachable in composition). -/
def get_alerts (data : Option Json) : Py String :=
  match data with
  | none => .ok "Unable to fetch alerts or no alerts found."
  | some d =>
    if d.falsy then .ok "Unable to fetch alerts or no alerts found."
    else match d with
      | .obj fs =>
        match fs.lookup "features" with
        | none => .ok "Unable to fetch alerts or no alerts found."
        | some features =>
          if features.falsy then .ok "No active alerts for this state."
          else match features with
            | .arr feats => do
                let alerts ← formatAlerts feats
                .ok (String.intercalate "\n---\n" alerts)
            | _ => .error "TypeError: iteration"
      | _ => .error "TypeError: membership"

/-! ## `get_forecast` -/

/-- A latitude/longitude pair, carried as the strings the Python runtime
would render: `latPy`/`lonPy` are `str(latitude)`/`str(longitude)` (used
in the points URL), `lat2`/`lon2` are the `:.2f` formats (used in the
grid-point failure message).  Floating-point-to-text conversion is a
runtime facility, so it is supplied as data rather than re-derived. -/
structure Coord where
  latPy : String
  lonPy : String
  lat2 : String
  lon2 : String

def NWS_API_BASE : String := "https://api.weather.gov"

/-- `f"{NWS_API_BASE}/points/{latitude},{longitude}"` -/
def pointsUrl (c : Coord) : String :=
  NWS_API_BASE ++ "/points/" ++ c.latPy ++ "," ++ c.lonPy

/-- The literal prefix of the period-name line, exactly the (mojibake)
characters on source line 157: U+F8FF U+00FC U+00E5 U+00A7. -/
def mojiName : String := "üå§ **"

/-- The literal bullet prefix of source lines 158-160:
U+201A U+00C4 U+00A2. -/
def mojiBullet : String := "‚Ä¢ "

/-- The literal characters between `{temp}` and `{unit}` on source line
158: U+00AC U+221E (a double-encoding mojibake of the degree sign). -/
def mojiDegree : String := "¬∞"

/-- The literal prefix of the header line on source line 168:
U+F8FF U+00FC U+00EC U+00E7, then a space. -/
def mojiPin : String := "üìç "

/-- One iteration of the `for p in periods[:5]:` loop: build the decorated
section and `strip()` it.  Every `p.get` raises `AttributeError` when `p`
is not a dict. -/
def formatPeriod (p : Json) : Py String := do
  let name ← pyDictGet p "name" (.str "Unknown period")
  let temp ← pyDictGet p "temperature" .null
  let unit ← pyDictGet p "temperatureUnit" (.str "")
  let windSpeed ← pyDictGet p "windSpeed" (.str "")
  let windDirection ← pyDictGet p "windDirection" (.str "")
  let details ← pyDictGet p "detailedForecast" (.str "No details available.")
  let wind := pyStrip (pyStr windSpeed ++ " " ++ pyStr windDirection)
  let sec :=
    mojiName ++ pyStr name ++ "**\n" ++
    mojiBullet ++ "Temperature: " ++ pyStr temp ++ mojiDegree ++ pyStr unit ++ "\n" ++
    mojiBullet ++ "Wind: " ++ wind ++ "\n" ++
    mojiBullet ++ "Forecast: " ++ pyStr details
  .ok (pyStrip sec)

/-- The whole `for p in ...: formatted.append(...)` loop over an already
sliced list; the first raised exception propagates. -/
def formatPeriods : List Json → Py (List String)
  | [] => .ok []
  | p :: ps =>
    match formatPeriod p with
    | .error e => .error e
    | .ok s =>
      match formatPeriods ps with
      | .error e => .error e
      | .ok rest => .ok (s :: rest)

/-- `points_data.get("properties", {}).get(key, dflt)` -/
def propsGet (pd : Json) (key : String) (dflt : Json) : Py Json :=
  match pyDictGet pd "properties" (.obj []) with
  | .error e => .error e
  | .ok props => pyDictGet props key dflt

/-- `location.get("properties", {}).get(key, "")` (source lines 165-166). -/
def locGet (location : Json) (key : String) : Py Json :=
  match pyDictGet location "properties" (.obj []) with
  | .error e => .error e
  | .ok lp => pyDictGet lp key (.str "")

/-- The `try:` body of `get_forecast`.  `fetch url` is the value returned
by `make_nws_request(url)` (the second fetch's URL is the forecast URL
rendered as text).  Returns the produced text, or `.error` for a raised
exception, paired with the list of URLs fetched, in order.  A truthy
non-list `periods` value would raise during slicing/iteration and is
collapsed to a single `.error`. -/
def get_forecastBody (fetch : String → Option Json) (c : Coord) :
    Py String × List String :=
  let purl := pointsUrl c
  match fetch purl with
  | none =>
      (.ok ("Unable to fetch forecast grid point for (" ++ c.lat2 ++ ", " ++ c.lon2 ++ ")."),
       [purl])
  | some pd =>
    if pd.falsy then
      (.ok ("Unable to fetch forecast grid point for (" ++ c.lat2 ++ ", " ++ c.lon2 ++ ")."),
       [purl])
    else
      match propsGet pd "forecast" .null with
      | .error e => (.error e, [purl])
      | .ok forecastUrl =>
        if forecastUrl.falsy then
          match propsGet pd "cwa" (.str "Unknown office") with
          | .error e => (.error e, [purl])
          | .ok office =>
            (.ok ("Forecast URL missing in NWS response. (Reporting office: " ++
                  pyStr office ++ ")"), [purl])
        else
          let furl := pyStr forecastUrl
          match fetch furl with
          | none => (.ok "Unable to fetch detailed forecast.", [purl, furl])
          | some fd =>
            if fd.falsy then (.ok "Unable to fetch detailed forecast.", [purl, furl])
            else
              match propsGet fd "periods" (.arr []) with
              | .error e => (.error e, [purl, furl])
              | .ok periods =>
                if periods.falsy then
                  (.ok "Forecast data is empty or malformed.", [purl, furl])
                else
                  match periods with
                  | .arr ps =>
                    match formatPeriods (ps.take 5) with
                    | .error e => (.error e, [purl, furl])
                    | .ok formatted =>
                      match propsGet pd "relativeLocation" (.obj []) with
                      | .error e => (.error e, [purl, furl])
                      | .ok location =>
                        match locGet location "city" with
                        | .error e => (.error e, [purl, furl])
                        | .ok city =>
                          match locGet location "state" with
                          | .error e => (.error e, [purl, furl])
                          | .ok state =>
                            let header :=
                              pyStrip (mojiPin ++ "Forecast for " ++
                                pyStr city ++ ", " ++ pyStr state)
                            (.ok (header ++ "\n\n" ++
                                  String.intercalate "\n\n---\n\n" formatted),
                             [purl, furl])
                  | _ => (.error "TypeError: slice", [purl, furl])

/-- `get_forecast(latitude, longitude)` including its outer
`try/except Exception`: a raised exception is converted into diagnostic
text.  `tracebackText` stands for `traceback.format_exc(limit=2)`, a
runtime facility supplied as data. -/
def get_forecast (fetch : String → Option Json) (c : Coord)
    (tracebackText : String) : String :=
  match (get_forecastBody fetch c).1 with
  | .ok s => s
  | .error e =>
      "Internal error fetching forecast: " ++ e ++ "\n\nTraceback:\n" ++ tracebackText

/-! ## Concrete scenarios used by witnesses and counterexamples -/

/-- Coordinates of the Boston scenario; `str()` and `:.2f` renders
supplied as data. -/
def coordBoston : Coord := ⟨"42.36", "-71.06", "42.36", "-71.06"⟩

/-- The forecast URL the Boston points response carries. -/
def forecastUrlBoston : String :=
  "https://api.weather.gov/gridpoints/BOX/71,90/forecast"

/-- A points response with forecast URL and a resolved Boston, MA
relative location. -/
def pointsBoston : Json :=
  Json.obj [("properties", Json.obj
    [("forecast", .str forecastUrlBoston),
     ("relativeLocation", Json.obj [("properties", Json.obj
        [("city", .str "Boston"), ("state", .str "MA")])])])]

/-- The i-th period object of the seven-period scenario. -/
def samplePeriod (i : Nat) : Json :=
  Json.obj [("name", .str ("Period " ++ toString i)), ("temperature", .num 70),
            ("temperatureUnit", .str "F"), ("windSpeed", .str "5 mph"),
            ("windDirection", .str "NW"), ("detailedForecast", .str "Clear.")]

/-- A forecast response carrying seven periods. -/
def sevenPeriodForecast : Json :=
  Json.obj [("properties", Json.obj
    [("periods", Json.arr ((List.range 7).map samplePeriod))])]

/-- Fetch oracle of the seven-period scenario. -/
def fetchSeven : String → Option Json := fun url =>
  if url = pointsUrl coordBoston then some pointsBoston
  else if url = forecastUrlBoston then some sevenPeriodForecast
  else none

/-- A single period with temperature 72 and unit "F". -/
def period72 : Json :=
  Json.obj [("name", .str "Tonight"), ("temperature", .num 72),
            ("temperatureUnit", .str "F"), ("windSpeed", .str "5 mph"),
            ("windDirection", .str "NW"), ("detailedForecast", .str "Clear.")]

/-- Fetch oracle of the 72-degree scenario. -/
def fetch72 : String → Option Json := fun url =>
  if url = pointsUrl coordBoston then some pointsBoston
  else if url = forecastUrlBoston then
    some (Json.obj [("properties", Json.obj [("periods", Json.arr [period72])])])
  else none

/-- Number of (possibly overlapping) occurrences of `pat` in a character
list — an observer used to state substring facts about produced text. -/
def countSub (pat : List Char) : List Char → Nat
  | [] => 0
  | c :: rest =>
    (if List.isPrefixOf pat (c :: rest) then 1 else 0) + countSub pat rest

/-- Number of period blocks in a produced forecast text: one more than
the number of block separators. -/
def blockCount (t : String) : Nat :=
  countSub "\n\n---\n\n".data t.data + 1

/-- The first line of a produced text. -/
def firstLine (t : String) : String :=
  ⟨t.data.takeWhile (fun c => c ≠ '\n')⟩

/-- What `formatPeriod` produces for an empty period object: every field
falls back to its default. -/
def blankPeriodBlock : String :=
  mojiName ++ "Unknown period**\n" ++
  mojiBullet ++ "Temperature: None" ++ mojiDegree ++ "\n" ++
  mojiBullet ++ "Wind: \n" ++
  mojiBullet ++ "Forecast: No details available."

/-! ## Helper lemmas -/

/-- When every attempt's outcome is retryable, the loop runs all its
remaining iterations: it returns `none`, logs exhaustion, makes attempts
`attempt, attempt+1, ...`, and sleeps `backoff ^ k` after the k-th
attempt — including after the last one. -/
theorem fetchLoop_retryable (outcomes : Nat → AttemptOutcome) (backoff : ℚ)
    (hret : ∀ k, (outcomes k).retryable = true) :
    ∀ (remaining attempt : Nat),
      (fetchLoop outcomes backoff attempt remaining).1 = none ∧
      FetchEvent.errorExhausted ∈ (fetchLoop outcomes backoff attempt remaining).2 ∧
      attemptsOf (fetchLoop outcomes backoff attempt remaining).2 =
        List.range' attempt remaining ∧
      sleepsOf (fetchLoop outcomes backoff attempt remaining).2 =
        (List.range' attempt remaining).map (fun k => backoff ^ k) := by
  intro remaining
  induction remaining with
  | zero =>
      intro attempt
      simp [fetchLoop, attemptsOf, sleepsOf, List.range']
  | succ r ih =>
      intro attempt
      obtain ⟨ih1, ih2, ih3, ih4⟩ := ih (attempt + 1)
      have h := hret attempt
      cases houtcome : outcomes attempt with
      | success body =>
          rw [houtcome] at h; simp [AttemptOutcome.retryable] at h
      | parseError =>
          rw [houtcome] at h; simp [AttemptOutcome.retryable] at h
      | otherError =>
          rw [houtcome] at h; simp [AttemptOutcome.retryable] at h
      | requestError =>
          refine ⟨?_, ?_, ?_, ?_⟩ <;>
            simp [fetchLoop, houtcome, attemptsOf, sleepsOf, List.range',
              ih1, ih2, ih3, ih4, attemptsOf.eq_def, sleepsOf.eq_def] <;>
            first
              | exact ih2
              | (simpa [attemptsOf] using ih3)
              | (simpa [sleepsOf] using ih4)
      | timeout =>
          refine ⟨?_, ?_, ?_, ?_⟩ <;>
            simp [fetchLoop, houtcome, attemptsOf, sleepsOf, List.range',
              ih1, ih2, ih3, ih4] <;>
            first
              | exact ih2
              | (simpa [attemptsOf] using ih3)
              | (simpa [sleepsOf] using ih4)
      | httpStatus code =>
          rw [houtcome] at h
          simp only [AttemptOutcome.retryable] at h
          refine ⟨?_, ?_, ?_, ?_⟩ <;>
            simp [fetchLoop, houtcome, h, attemptsOf, sleepsOf, List.range',
              ih1, ih2, ih3, ih4] <;>
            first
              | exact ih2
              | (simpa [attemptsOf] using ih3)
              | (simpa [sleepsOf] using ih4)

/-- Powers of a base above 1 grow strictly along consecutive exponents. -/
theorem chainPow (backoff : ℚ) (hb : 1 < backoff) :
    ∀ (r a : Nat),
      List.Chain' (· < ·) ((List.range' a r).map (fun k => backoff ^ k)) := by
  intro r
  induction r with
  | zero => intro a; simp [List.range']
  | succ s ih =>
      intro a
      have hstep : List.range' a (s + 1) = a :: List.range' (a + 1) s := rfl
      rw [hstep, List.map_cons, List.chain'_cons']
      refine ⟨?_, ih (a + 1)⟩
      intro b hbmem
      cases s with
      | zero => simp [List.range'] at hbmem
      | succ t =>
          have : List.range' (a + 1) (t + 1) = (a + 1) :: List.range' (a + 2) t := rfl
          rw [this, List.map_cons] at hbmem
          simp only [List.head?_cons, Option.mem_def, Option.some.injEq] at hbmem
          subst hbmem
          exact pow_lt_pow_right₀ hb (Nat.lt_succ_self a)

/-! ## Claim C3 -/

/-- Claim C3, counterexample to the claim as stated: the claim says the
failing status code is surfaced in the returned failure, but
`make_nws_request` returns a bare `None` on a non-retryable status — a
404 and a 403 first response produce identical return values, so the
code is not recoverable from the returned failure (it appears only in
the error log).  The single-attempt half of the claim does hold: the
attempt trace is `[1]`. -/
theorem C3_counterexample :
    (make_nws_request (fun _ => .httpStatus 404) 3 (3/2)).1 = none ∧
    (make_nws_request (fun _ => .httpStatus 403) 3 (3/2)).1 =
      (make_nws_request (fun _ => .httpStatus 404) 3 (3/2)).1 ∧
    attemptsOf (make_nws_request (fun _ => .httpStatus 404) 3 (3/2)).2 = [1] :=
  ⟨rfl, rfl, rfl⟩

/-- Claim C3, amended: when the first response carries a non-2xx status
outside 429/500/502/503/504, exactly one attempt is made (no retry, no
backoff sleep, even though attempts remain) and the return value is
`None`; the failing status code is surfaced in the error-level log
entry, not in the returned value. -/
theorem C3_nonRetryable_single_attempt (outcomes : Nat → AttemptOutcome)
    (maxRetries : Nat) (backoff : ℚ) (code : Nat)
    (hmax : 1 ≤ maxRetries) (hout : outcomes 1 = .httpStatus code)
    (htrans : transientStatus code = false) :
    make_nws_request outcomes maxRetries backoff =
      (none, [.attempt 1, .errorStatus code]) := by
  obtain ⟨r, rfl⟩ : ∃ r, maxRetries = r + 1 := ⟨maxRetries - 1, by omega⟩
  simp [make_nws_request, fetchLoop, hout, htrans]

/-- Claim C3, witness: the amended theorem applied to a 404 first
response with three attempts allowed. -/
theorem C3_witness :
    make_nws_request (fun _ => .httpStatus 404) 3 (3/2) =
      (none, [.attempt 1, .errorStatus 404]) :=
  C3_nonRetryable_single_attempt _ 3 _ 404 (by norm_num) rfl rfl

/-! ## Claim C4 -/

/-- Claim C4: when every attempt fails with a transient status (or
another retryable failure), attempts `1 .. maxRetries` are all made,
the terminal failure `None` is returned with the exhaustion error
logged, the k-th sleep lasts `backoff ^ k` seconds, and (for a backoff
factor above 1) the delays strictly increase across attempts. -/
theorem C4_transient_retries_exhaust (outcomes : Nat → AttemptOutcome)
    (maxRetries : Nat) (backoff : ℚ)
    (hret : ∀ k, (outcomes k).retryable = true) (hb : 1 < backoff) :
    (make_nws_request outcomes maxRetries backoff).1 = none ∧
    FetchEvent.errorExhausted ∈ (make_nws_request outcomes maxRetries backoff).2 ∧
    attemptsOf (make_nws_request outcomes maxRetries backoff).2 =
      List.range' 1 maxRetries ∧
    sleepsOf (make_nws_request outcomes maxRetries backoff).2 =
      (List.range' 1 maxRetries).map (fun k => backoff ^ k) ∧
    List.Chain' (· < ·) (sleepsOf (make_nws_request outcomes maxRetries backoff).2) := by
  obtain ⟨h1, h2, h3, h4⟩ := fetchLoop_retryable outcomes backoff hret maxRetries 1
  exact ⟨h1, h2, h3, h4, h4 ▸ chainPow backoff hb maxRetries 1⟩

/-- Claim C4, witness: three attempts all answered with HTTP 503 and
backoff factor 3/2 — attempts 1, 2, 3 are made and the sleeps are
(3/2)^1, (3/2)^2, (3/2)^3, strictly increasing. -/
theorem C4_witness :
    (∀ k : Nat, ((fun _ : Nat => AttemptOutcome.httpStatus 503) k).retryable = true) ∧
    (1 < (3/2 : ℚ)) ∧
    ((make_nws_request (fun _ => .httpStatus 503) 3 (3/2)).1 = none ∧
     FetchEvent.errorExhausted ∈ (make_nws_request (fun _ => .httpStatus 503) 3 (3/2)).2 ∧
     attemptsOf (make_nws_request (fun _ => .httpStatus 503) 3 (3/2)).2 =
       List.range' 1 3 ∧
     sleepsOf (make_nws_request (fun _ => .httpStatus 503) 3 (3/2)).2 =
       (List.range' 1 3).map (fun k => (3/2 : ℚ) ^ k) ∧
     List.Chain' (· < ·)
       (sleepsOf (make_nws_request (fun _ => .httpStatus 503) 3 (3/2)).2)) :=
  ⟨fun _ => rfl, by norm_num,
   C4_transient_retries_exhaust _ 3 _ (fun _ => rfl) (by norm_num)⟩

/-! ## Claim C5 -/

/-- Claim C5 names intended behavior the code does not implement: with
`max_retries = 1` and the single attempt failing with a retryable 503,
the loop still sleeps `backoff_factor ^ 1` seconds after that final
attempt before returning the terminal `None` — the backoff sleep is not
restricted to the case where attempts remain (the code's own comment
says the wait is "before retrying", yet no retry follows). -/
theorem C5_sleeps_after_final_attempt :
    make_nws_request (fun _ => .httpStatus 503) 1 (3/2) =
      (none, [.attempt 1, .warnTransient 503, .sleep ((3/2) ^ 1),
              .errorExhausted]) ∧
    sleepsOf (make_nws_request (fun _ => .httpStatus 503) 1 (3/2)).2 =
      [(3/2 : ℚ) ^ 1] :=
  ⟨rfl, rfl⟩

/-! ## Claim C6 -/

/-- Claim C6: a first response that is 2xx but whose body is not a JSON
object — it fails to parse, or parses to a non-object such as a list —
makes the fetch return the malformed-body failure (`None`, with the
parse warning logged) after exactly one attempt, with no retry and no
sleep even though attempts remain. -/
theorem C6_malformed_body_no_retry (outcomes : Nat → AttemptOutcome)
    (maxRetries : Nat) (backoff : ℚ) (hmax : 1 ≤ maxRetries)
    (hout : outcomes 1 = .parseError ∨
            ∃ body, outcomes 1 = .success body ∧ body.isObj = false) :
    make_nws_request outcomes maxRetries backoff =
      (none, [.attempt 1, .warnParse]) := by
  obtain ⟨r, rfl⟩ : ∃ r, maxRetries = r + 1 := ⟨maxRetries - 1, by omega⟩
  rcases hout with h | ⟨body, h, hbody⟩
  · simp [make_nws_request, fetchLoop, h]
  · simp [make_nws_request, fetchLoop, h, hbody]

/-- Claim C6, witness: a 2xx response parsing to the empty JSON array,
with three attempts allowed, fails after one attempt with the parse
warning. -/
theorem C6_witness :
    make_nws_request (fun _ => .success (Json.arr [])) 3 (3/2) =
      (none, [.attempt 1, .warnParse]) :=
  C6_malformed_body_no_retry _ 3 _ (by norm_num) (Or.inr ⟨Json.arr [], rfl, rfl⟩)

/-! ## Claim C7 -/

/-- Claim C7: `get_alerts` answers a failed fetch or a response without
a `features` key with exactly "Unable to fetch alerts or no alerts
found.", and a successful response whose `features` list is empty with
exactly "No active alerts for this state." -/
theorem C7_alert_messages :
    get_alerts none = .ok "Unable to fetch alerts or no alerts found." ∧
    (∀ fields : List (String × Json), fields.lookup "features" = none →
      get_alerts (some (Json.obj fields)) =
        .ok "Unable to fetch alerts or no alerts found.") ∧
    (∀ fields : List (String × Json),
      fields.lookup "features" = some (Json.arr []) →
      get_alerts (some (Json.obj fields)) =
        .ok "No active alerts for this state.") := by
  refine ⟨rfl, ?_, ?_⟩
  · intro fields h
    cases fields with
    | nil => rfl
    | cons f fs => simp [get_alerts, Json.falsy, h]
  · intro fields h
    cases fields with
    | nil => simp at h
    | cons f fs => simp [get_alerts, Json.falsy, h]

/-- Claim C7, witness: the theorem applied to a response without a
`features` key and to one with an empty `features` list. -/
theorem C7_witness :
    get_alerts (some (Json.obj [("title", Json.str "t")])) =
      .ok "Unable to fetch alerts or no alerts found." ∧
    get_alerts (some (Json.obj [("features", Json.arr [])])) =
      .ok "No active alerts for this state." :=
  ⟨C7_alert_messages.2.1 _ rfl, C7_alert_messages.2.2 _ rfl⟩

/-! ## Claim C2 -/

/-- Claim C2, counterexample to the claim as stated: `get_alerts` has no
try/except, so a fetched response whose `features` list contains a
feature without a `properties` key makes `format_alert` raise a
`KeyError` that propagates out of the tool function instead of being
converted to text. -/
theorem C2_counterexample :
    get_alerts (some (Json.obj [("features", Json.arr [Json.obj []])])) =
      .error "KeyError: properties" := rfl

/-- Claim C2, amended: only `get_forecast` has the catch-all boundary —
whenever its body raises, the tool returns the diagnostic text
(exception rendering followed by the traceback) instead of propagating;
`get_alerts` can propagate a raised exception. -/
theorem C2_forecast_catches_alerts_may_raise :
    (∀ (fetch : String → Option Json) (c : Coord) (tb e : String),
        (get_forecastBody fetch c).1 = .error e →
        get_forecast fetch c tb =
          "Internal error fetching forecast: " ++ e ++ "\n\nTraceback:\n" ++ tb) ∧
    (∃ data : Json, ∃ e : String, get_alerts (some data) = .error e) := by
  constructor
  · intro fetch c tb e h
    unfold get_forecast
    rw [h]
  · exact ⟨Json.obj [("features", Json.arr [Json.obj []])],
           "KeyError: properties", rfl⟩

/-- Claim C2, witness: a points response that is a bare number makes the
body raise (`.get` on a non-dict), and `get_forecast` converts the raise
into the diagnostic text. -/
theorem C2_witness :
    get_forecast (fun _ => some (Json.num 3)) ⟨"1.0", "2.0", "1.00", "2.00"⟩ "TB" =
      "Internal error fetching forecast: AttributeError: get\n\nTraceback:\nTB" :=
  C2_forecast_catches_alerts_may_raise.1 _ _ "TB" "AttributeError: get" rfl

/-! ## Claim C1 -/

/-- Claim C1, counterexample to the claim as stated: with a fetch oracle
on which the points request fails but any other request (a fallback
included) would succeed, `get_forecast` still returns the grid-point
failure message and fetches nothing beyond the points URL — no fallback
source is invoked and no fallback output is returned. -/
theorem C1_counterexample :
    get_forecastBody
      (fun url =>
        if url = "https://api.weather.gov/points/38.9,-77.0" then none
        else some (Json.obj [("current_weather",
          Json.obj [("temperature", Json.num 15)])]))
      ⟨"38.9", "-77.0", "38.90", "-77.00"⟩ =
      (.ok "Unable to fetch forecast grid point for (38.90, -77.00).",
       ["https://api.weather.gov/points/38.9,-77.0"]) := rfl

/-- Claim C1, amended: when the points fetch fails entirely,
`get_forecast` immediately returns the grid-point failure message,
having fetched only the points URL; the code contains no fallback
source. -/
theorem C1_points_failure_fails_fast (fetch : String → Option Json) (c : Coord)
    (h : fetch (pointsUrl c) = none) :
    get_forecastBody fetch c =
      (.ok ("Unable to fetch forecast grid point for (" ++ c.lat2 ++ ", " ++
            c.lon2 ++ ")."),
       [pointsUrl c]) := by
  simp [get_forecastBody, h]

/-- Claim C1, witness: the amended theorem at a concrete always-failing
fetch oracle. -/
theorem C1_witness :
    get_forecastBody (fun _ => none) ⟨"1.0", "2.0", "1.00", "2.00"⟩ =
      (.ok "Unable to fetch forecast grid point for (1.00, 2.00).",
       ["https://api.weather.gov/points/1.0,2.0"]) :=
  C1_points_failure_fails_fast _ _ rfl

/-! ## Claim C8 -/

/-- The formatting loop yields one block per period it is given. -/
theorem formatPeriods_length :
    ∀ (l : List Json) (out : List String),
      formatPeriods l = .ok out → out.length = l.length := by
  intro l
  induction l with
  | nil =>
      intro out h
      injection h with h
      rw [← h]
      rfl
  | cons p ps ih =>
      intro out h
      simp only [formatPeriods] at h
      cases hfp : formatPeriod p with
      | error e => rw [hfp] at h; simp at h
      | ok s =>
          rw [hfp] at h
          cases hrest : formatPeriods ps with
          | error e => rw [hrest] at h; simp at h
          | ok rest =>
              rw [hrest] at h
              simp only [Except.ok.injEq] at h
              rw [← h]
              simp [ih rest hrest]

set_option maxRecDepth 20000 in
/-- Claim C8: the period list passed to the formatting loop is truncated
to 5 entries, so the output carries `min 5 n` blocks for an n-period
response — never more than 5; concretely, the seven-period Boston
scenario produces text that splits into exactly 5 blocks at the block
separator. -/
theorem C8_at_most_five_blocks :
    (∀ (ps : List Json) (out : List String),
        formatPeriods (ps.take 5) = .ok out →
        out.length = min 5 ps.length ∧ out.length ≤ 5) ∧
    ((get_forecastBody fetchSeven coordBoston).1.map blockCount) = .ok 5 := by
  constructor
  · intro ps out h
    have hlen := formatPeriods_length _ _ h
    rw [List.length_take] at hlen
    exact ⟨hlen, hlen ▸ min_le_left 5 ps.length⟩
  · rfl

set_option maxRecDepth 20000 in
/-- Claim C8, witness: seven empty period objects — the loop receives the
first five and produces five blocks. -/
theorem C8_witness :
    formatPeriods ((List.replicate 7 (Json.obj [])).take 5) =
      .ok (List.replicate 5 blankPeriodBlock) ∧
    (List.replicate 5 blankPeriodBlock).length =
      min 5 (List.replicate 7 (Json.obj [])).length ∧
    (List.replicate 5 blankPeriodBlock).length ≤ 5 :=
  ⟨rfl,
   (C8_at_most_five_blocks.1 (List.replicate 7 (Json.obj []))
     (List.replicate 5 blankPeriodBlock) rfl).1,
   (C8_at_most_five_blocks.1 (List.replicate 7 (Json.obj []))
     (List.replicate 5 blankPeriodBlock) rfl).2⟩

/-! ## Claim C9 -/

set_option maxRecDepth 20000 in
/-- Claim C9 describes the source's evident intent, but the literals in
the file are mojibake: in the Boston scenario with a period of
temperature 72 and unit "F", the output contains exactly one occurrence
of "72" followed by U+00AC U+221E (the double-encoding of the degree
sign) and "F", zero occurrences of the claimed substring "72°F" (with
U+00B0), and its first line is the mojibake-prefixed header, not the
bare "Forecast for Boston, MA". -/
theorem C9_mojibake_not_degree :
    ((get_forecastBody fetch72 coordBoston).1.map fun t =>
        (countSub ("72" ++ mojiDegree ++ "F").data t.data,
         countSub "72°F".data t.data,
         firstLine t)) =
      .ok (1, 0, mojiPin ++ "Forecast for Boston, MA") := rfl

/-! ## Claim C10 -/

/-- Claim C10: when the points-and-forecast lookup succeeds but the
points response lacks `relativeLocation` — or carries one whose
`properties` lack the `city` and `state` fields — `get_forecast` still
returns a successful formatted forecast, with the header's city and
state degraded to empty strings. -/
theorem C10_missing_location_defaults (fetch : String → Option Json) (c : Coord)
    (pdProps : List (String × Json)) (u : String)
    (hpoints : fetch (pointsUrl c) =
      some (Json.obj [("properties", Json.obj pdProps)]))
    (hfurl : pdProps.lookup "forecast" = some (Json.str u)) (hu : u ≠ "")
    (hloc : pdProps.lookup "relativeLocation" = none ∨
      ∃ lp, pdProps.lookup "relativeLocation" = some (Json.obj lp) ∧
        (lp.lookup "properties" = none ∨
         ∃ cp, lp.lookup "properties" = some (Json.obj cp) ∧
           cp.lookup "city" = none ∧ cp.lookup "state" = none))
    (periods : List Json) (hne : periods ≠ [])
    (hforecast : fetch u =
      some (Json.obj [("properties", Json.obj [("periods", Json.arr periods)])]))
    (out : List String) (hout : formatPeriods (periods.take 5) = .ok out) :
    get_forecastBody fetch c =
      (.ok (pyStrip (mojiPin ++ "Forecast for " ++ ", ") ++ "\n\n" ++
            String.intercalate "\n\n---\n\n" out),
       [pointsUrl c, u]) := by
  obtain ⟨p, ps, rfl⟩ := List.exists_cons_of_ne_nil hne
  have hu' : (u == "") = false := by simp [hu]
  have hout' : formatPeriods (p :: List.take 4 ps) = Except.ok out := hout
  rcases hloc with hrel | ⟨lp, hrel, hcp⟩
  · simp [get_forecastBody, hpoints, propsGet, locGet, pyDictGet, Json.falsy,
      hfurl, hu', pyStr, hforecast, hrel, hout']
  · rcases hcp with hlp | ⟨cp, hlp, hcity, hstate⟩
    · simp [get_forecastBody, hpoints, propsGet, locGet, pyDictGet, Json.falsy,
        hfurl, hu', pyStr, hforecast, hrel, hlp, hout']
    · simp [get_forecastBody, hpoints, propsGet, locGet, pyDictGet, Json.falsy,
        hfurl, hu', pyStr, hforecast, hrel, hlp, hcity, hstate, hout']

/-- Claim C10, witness: a concrete lookup whose points response has a
forecast URL but no `relativeLocation`; the forecast succeeds with one
(empty) period and the header degrades to "Forecast for ,". -/
theorem C10_witness :
    get_forecastBody
      (fun url =>
        if url = "https://api.weather.gov/points/1.0,2.0" then
          some (Json.obj [("properties",
            Json.obj [("forecast", Json.str "https://api.weather.gov/f")])])
        else if url = "https://api.weather.gov/f" then
          some (Json.obj [("properties",
            Json.obj [("periods", Json.arr [Json.obj []])])])
        else none)
      ⟨"1.0", "2.0", "1.00", "2.00"⟩ =
      (.ok (pyStrip (mojiPin ++ "Forecast for , ") ++ "\n\n" ++
            String.intercalate "\n\n---\n\n" [blankPeriodBlock]),
       ["https://api.weather.gov/points/1.0,2.0", "https://api.weather.gov/f"]) :=
  C10_missing_location_defaults _ _
    [("forecast", Json.str "https://api.weather.gov/f")] _
    rfl rfl (by simp) (Or.inl rfl) [Json.obj []] (by simp) rfl [blankPeriodBlock] rfl

end MCPWeather
